import Mathlib

/-!
Shallow embedding of the edge-deployment orchestration in
`src/cloud/image_classification_pipeline.ipynb`: the model resolver,
the compilation and edge-packaging stages with their polling loops,
the `split_s3_path` helper and the IoT fleet-dispatch stage.

Python exceptions are modelled with `Except PyErr`; the remote services
(the SageMaker model registry and the job status endpoints) are modelled
as explicit inputs of the execution environment.
-/

/-- Python exceptions that the notebook code can raise. -/
inductive PyErr where
  | valueError
  | nameError
  | clientError
deriving DecidableEq, Repr

/-! ## Python string helpers used by `split_s3_path` (notebook lines 300-304)

Python strings are modelled as `List Char` (wrapped back into `String` at the
interface). `str.replace("s3://", "")` removes every non-overlapping
occurrence of the pattern, scanning left to right; `str.split("/")` splits at
every slash (`"".split("/") == [""]`); `"/".join` interleaves a slash. -/

/-- Left-to-right removal of every occurrence of the pattern `s3://`,
the semantics of Python `s.replace("s3://", "")`. -/
def removeAllS3 : List Char → List Char
  | 's' :: '3' :: ':' :: '/' :: '/' :: rest => removeAllS3 rest
  | c :: cs => c :: removeAllS3 cs
  | [] => []

/-- Whether the list begins with the five characters of `s3://`. -/
def startsS3 : List Char → Bool
  | 's' :: '3' :: ':' :: '/' :: '/' :: _ => true
  | _ => false

/-- Whether `s3://` occurs anywhere in the list. -/
def containsS3 : List Char → Bool
  | [] => false
  | c :: cs => startsS3 (c :: cs) || containsS3 cs

/-- Python `s.split("/")` on character lists: always returns at least one
piece, and `[].split` is `[[]]`. -/
def splitOnSlash : List Char → List (List Char)
  | [] => [[]]
  | c :: cs =>
    if c = '/' then [] :: splitOnSlash cs
    else
      match splitOnSlash cs with
      | [] => [[c]]
      | p :: ps => (c :: p) :: ps

/-- Python `"/".join(pieces)` on character lists. -/
def intercalateSlash : List (List Char) → List Char
  | [] => []
  | [x] => x
  | x :: y :: ys => x ++ '/' :: intercalateSlash (y :: ys)

/-- `split_s3_path` from notebook lines 300-304:
`path_parts = s3_path.replace("s3://", "").split("/")`,
`bucket = path_parts.pop(0)`, `key = "/".join(path_parts)`. -/
def split_s3_path (s3_path : String) : String × String :=
  match splitOnSlash (removeAllS3 s3_path.data) with
  | [] => ("", "")
  | bucket :: rest => (String.mk bucket, String.mk (intercalateSlash rest))

/-! ## Model registry and the model resolver (notebook lines 170-187)

A registry entry holds the group it belongs to, its ARN, its version, its
approval status and the `ModelDataUrl` that `describe_model_package` reports
for it. ARNs identify packages in the registry. -/

/-- One model package registered in the SageMaker model registry. -/
structure RegistryEntry where
  group : String
  arn : String
  version : Nat
  approvalStatus : String
  modelDataUrl : String
deriving DecidableEq, Repr

/-- The registry state visible to the client. -/
abbrev Registry := List RegistryEntry

/-- `client.list_model_packages(ModelPackageGroupName=…, ModelApprovalStatus=…)`:
the summaries of the packages of the group with the given approval status. -/
def list_model_packages (client : Registry) (groupName approvalStatus : String) : Registry :=
  client.filter (fun e => e.group == groupName && e.approvalStatus == approvalStatus)

/-- Python `max(best, y)` step under a key: replaces the running maximum only
when the new key is strictly larger, so ties keep the earlier element. -/
def pickLater (key : RegistryEntry → Nat) (best y : RegistryEntry) : RegistryEntry :=
  if key best < key y then y else best

/-- Python `max(xs, key=…)`: raises `ValueError` on an empty sequence,
otherwise folds `pickLater` over the sequence. -/
def pyMax (key : RegistryEntry → Nat) : Registry → Except PyErr RegistryEntry
  | [] => Except.error PyErr.valueError
  | x :: xs => Except.ok (xs.foldl (pickLater key) x)

/-- `sm_client.describe_model_package(ModelPackageName=arn)…['ModelDataUrl']`:
looks the ARN up in the registry. -/
def describe_model_package (client : Registry) (arn : String) : Except PyErr String :=
  match client.find? (fun e => e.arn == arn) with
  | some e => Except.ok e.modelDataUrl
  | none => Except.error PyErr.clientError

/-- `get_latest_approved_s3_model_location(client, model_package_group)` from
notebook lines 170-178. The body queries the module-global
`model_package_group_name` (here the explicit `globalGroupName` argument) and
never reads its `model_package_group` parameter, exactly as the source does. -/
def get_latest_approved_s3_model_location (client : Registry)
    (globalGroupName : String) (model_package_group : String) : Except PyErr String :=
  match pyMax (fun e => e.version) (list_model_packages client globalGroupName "Approved") with
  | Except.error e => Except.error e
  | Except.ok latest_version => describe_model_package client latest_version.arn

/-- `get_latest_approved_model_version(client, model_package_group)` from
notebook lines 180-187; like the location resolver it queries the global
group name and ignores its parameter. -/
def get_latest_approved_model_version (client : Registry)
    (globalGroupName : String) (model_package_group : String) : Except PyErr Nat :=
  match pyMax (fun e => e.version) (list_model_packages client globalGroupName "Approved") with
  | Except.error e => Except.error e
  | Except.ok latest_version => Except.ok latest_version.version

/-! ## Job names (notebook lines 207-208 and 256) -/

/-- `model_name = 'img-classification'` (line 207). -/
def model_name : String := "img-classification"

/-- `compilation_job_name = '%s-%d' % (model_name, int(time.time()*1000))`
(line 208), as a function of the millisecond clock reading. -/
def compilation_job_name (timestampMs : Nat) : String :=
  model_name ++ "-" ++ toString timestampMs

/-- `edge_packaging_job_name = '%s-%d' % (model_name, int(time.time()*1000))`
(line 256), as a function of the millisecond clock reading. -/
def edge_packaging_job_name (timestampMs : Nat) : String :=
  model_name ++ "-" ++ toString timestampMs

/-! ## The orchestration after training (notebook lines 149-328)

The remote side of each polled job is modelled as a sequence of responses,
one per `describe_…` call; the environment also carries the fixed notebook
globals and the clock/uuid readings. Every status outside
`['STARTING', 'INPROGRESS']` is terminal for the polling loops. -/

/-- One `describe_compilation_job` / `describe_edge_packaging_job` response:
its status field and the artifact location it reports
(`ModelArtifacts.S3ModelArtifacts` resp. `ModelArtifact`). -/
structure JobResp where
  status : String
  artifact : String
deriving DecidableEq, Repr

/-- The in-progress statuses of the two polling loops (lines 230 and 275). -/
def inProgressStatuses : List String := ["STARTING", "INPROGRESS"]

/-- The execution environment of one notebook run: the fixed globals, the
registry state, the clock readings taken at lines 208 and 256, the uuid drawn
at line 316, and the two remote response sequences. `compTerminates` and
`packTerminates` record that the remote service eventually reports a status
outside the in-progress set, which is what makes the `while True` loops
terminate. -/
structure Env where
  projectName : String
  accountId : String
  region : String
  role : String
  registry : Registry
  compTimestampMs : Nat
  packTimestampMs : Nat
  uuidStr : String
  compResponses : Nat → JobResp
  packResponses : Nat → JobResp
  compTerminates : ∃ i, (compResponses i).status ∉ inProgressStatuses
  packTerminates : ∃ i, (packResponses i).status ∉ inProgressStatuses

/-- `model_package_group_name = 'defect-detection-img-classification-%s' % PROJECT_NAME`
(line 41). -/
def Env.modelPackageGroupName (env : Env) : String :=
  "defect-detection-img-classification-" ++ env.projectName

/-- `bucket_name = 'sm-edge-workshop-%s-%s' % (PROJECT_NAME, account_id)` (line 38). -/
def Env.bucketName (env : Env) : String :=
  "sm-edge-workshop-" ++ env.projectName ++ "-" ++ env.accountId

/-- `job_prefix = 'defect-detection-img-classification'` (line 42). -/
def jobPrefixVal : String := "defect-detection-img-classification"

/-- `s3_compilation_output_location` (lines 152-156). -/
def Env.s3CompilationOutputLocation (env : Env) : String :=
  "s3://" ++ env.bucketName ++ "/" ++ ("models/" ++ jobPrefixVal ++ "/compilation-output")

/-- `s3_edgepackaging_output_location` (lines 153-159). -/
def Env.s3EdgepackagingOutputLocation (env : Env) : String :=
  "s3://" ++ env.bucketName ++ "/" ++ ("models/" ++ jobPrefixVal ++ "/edge-packaging-output")

/-- The device-group ARN targeted by `iot_client.create_job` (line 318). -/
def Env.deviceGroupArn (env : Env) : String :=
  "arn:aws:iot:" ++ env.region ++ ":" ++ env.accountId ++
    ":thinggroup/defect-detection-" ++ env.projectName ++ "-group"

/-- The index of the first remote response whose status is outside the
in-progress set: the iteration at which the compilation polling loop
(lines 228-235) hits its `break`. -/
def Env.compExit (env : Env) : Nat := Nat.find env.compTerminates

/-- The iteration at which the edge-packaging polling loop (lines 273-280)
hits its `break`. -/
def Env.packExit (env : Env) : Nat := Nat.find env.packTerminates

/-- The `time.sleep(5)` calls performed by the compilation polling loop:
one 5-second sleep per in-progress response (line 235). -/
def Env.compPollSleeps (env : Env) : List Nat := List.replicate env.compExit 5

/-- The `time.sleep(5)` calls performed by the edge-packaging polling loop
(line 280). -/
def Env.packPollSleeps (env : Env) : List Nat := List.replicate env.packExit 5

/-- Lines 237-239 and 282-284: after the loop, the artifact-location variable
is assigned only inside the `if … == 'COMPLETED'` branch, from the final
response; on any other terminal status it stays unset. -/
def artifactVarOf (resp : JobResp) : Option String :=
  if resp.status = "COMPLETED" then some resp.artifact else none

/-- `s3_compiled_model_artifact_location_fullpath` after the compilation cell:
`some` of the reported artifact when the loop exited with `COMPLETED`,
otherwise unset. -/
def Env.compArtifactVar (env : Env) : Option String :=
  artifactVarOf (env.compResponses env.compExit)

/-- `s3_packaged_model_artifact_location_fullpath` after the packaging cell. -/
def Env.packArtifactVar (env : Env) : Option String :=
  artifactVarOf (env.packResponses env.packExit)

/-- The remote requests the notebook submits. -/
inductive Event where
  | createCompilationJob (jobName roleArn inputUri dataInputConfig framework
      outputLocation os arch : String) (maxRuntimeSeconds : Nat)
  | createEdgePackagingJob (jobName compilationJobName modelName modelVersion
      roleArn outputLocation : String)
  | createIotJob (jobId : String) (targets : List String)
      (document : List (String × String)) (targetSelection : String)
deriving DecidableEq, Repr

/-- Recognises a `create_edge_packaging_job` submission. -/
def isEdgePackagingEvent : Event → Bool
  | Event.createEdgePackagingJob _ _ _ _ _ _ => true
  | _ => false

/-- Recognises an `iot_client.create_job` submission. -/
def isIotJobEvent : Event → Bool
  | Event.createIotJob _ _ _ _ => true
  | _ => false

/-- The outcome of one notebook run: the requests submitted, in order, and
the Python exception that ended the run early, if any. -/
structure Trace where
  events : List Event
  error : Option PyErr
deriving DecidableEq, Repr

/-- The notebook cells from line 203 to line 328 with the two polling-loop
exit iterations given explicitly. Faithful to the source control flow:

* line 204: the location resolver runs first; a raised exception ends the run;
* lines 211-224: `create_compilation_job` is submitted;
* lines 228-239: the loop polls to its first terminal response; the compiled
  artifact variable is set only on `COMPLETED` — and is never read afterwards,
  so a failed compilation gates nothing;
* lines 256-269: the packaging cell resolves the model version and submits
  `create_edge_packaging_job` unconditionally (it references the compilation
  job only by name);
* lines 273-284: the packaging loop polls to its first terminal response;
* line 306: `split_s3_path` reads the packaged-artifact variable, raising
  `NameError` when the packaging loop did not end in `COMPLETED`;
* lines 315-328: `iot_client.create_job` is submitted. -/
def runPipelineAt (env : Env) (compExitIdx packExitIdx : Nat) : Trace :=
  match get_latest_approved_s3_model_location env.registry
      env.modelPackageGroupName env.modelPackageGroupName with
  | Except.error e => { events := [], error := some e }
  | Except.ok s3_model_artifact_location =>
    let compJobName := compilation_job_name env.compTimestampMs
    let ev1 := Event.createCompilationJob compJobName env.role s3_model_artifact_location
      "\x7b\"data\": [1,3,224,224]\x7d" "MXNET" env.s3CompilationOutputLocation
      "LINUX" "X86_64" 900
    let compResp := env.compResponses compExitIdx
    let _compiledVar := artifactVarOf compResp
    let packJobName := edge_packaging_job_name env.packTimestampMs
    match get_latest_approved_model_version env.registry
        env.modelPackageGroupName env.modelPackageGroupName with
    | Except.error e => { events := [ev1], error := some e }
    | Except.ok v =>
      let modelVersion := toString v
      let ev2 := Event.createEdgePackagingJob packJobName compJobName model_name
        modelVersion env.role env.s3EdgepackagingOutputLocation
      let packResp := env.packResponses packExitIdx
      match artifactVarOf packResp with
      | none => { events := [ev1, ev2], error := some PyErr.nameError }
      | some uri =>
        let bk := split_s3_path uri
        let ev3 := Event.createIotJob env.uuidStr [env.deviceGroupArn]
          [("type", "new_model"), ("model_version", modelVersion),
           ("model_name", model_name), ("model_package_bucket", bk.1),
           ("model_package_key", bk.2)] "SNAPSHOT"
        { events := [ev1, ev2, ev3], error := none }

/-- One run of the notebook cells from line 203 to line 328: the polling
loops exit at the first terminal response. -/
def runPipeline (env : Env) : Trace :=
  runPipelineAt env env.compExit env.packExit

/-! ## Concrete registries and environments used to evaluate the model -/

/-- A registry with versions 1, 2 and 5 in one group, where 5 is unapproved
and 2 is the highest approved version. -/
def demoRegistry : Registry :=
  [ ⟨"grp", "arn-v1", 1, "Approved", "s3://artifacts/model-v1.tar.gz"⟩,
    ⟨"grp", "arn-v2", 2, "Approved", "s3://artifacts/model-v2.tar.gz"⟩,
    ⟨"grp", "arn-v5", 5, "PendingManualApproval", "s3://artifacts/model-v5.tar.gz"⟩ ]

/-- A registry holding one entry in the group named "groupRejected", with a
non-approved status, so the approved list of that group is empty. -/
def demoRejectedRegistry : Registry :=
  [ ⟨"groupRejected", "arn-r1", 1, "Rejected", "s3://artifacts/rejected.tar.gz"⟩ ]

/-- A registry with approved entries in two distinct groups, used to show
which group the resolver actually reads. -/
def demoTwoGroups : Registry :=
  [ ⟨"groupA", "arn-a1", 1, "Approved", "s3://bucket-a/model-a.tar.gz"⟩,
    ⟨"groupB", "arn-b1", 1, "Approved", "s3://bucket-b/model-b.tar.gz"⟩ ]

/-- The registry of the pipeline environments below: the group name the
notebook derives from `PROJECT_NAME = "demo"`, approved versions 1 and 2,
unapproved version 5. -/
def demoPipelineRegistry : Registry :=
  [ ⟨"defect-detection-img-classification-demo", "arn-p1", 1, "Approved",
      "s3://artifacts/model-v1.tar.gz"⟩,
    ⟨"defect-detection-img-classification-demo", "arn-p2", 2, "Approved",
      "s3://artifacts/model-v2.tar.gz"⟩,
    ⟨"defect-detection-img-classification-demo", "arn-p5", 5, "PendingManualApproval",
      "s3://artifacts/model-v5.tar.gz"⟩ ]

/-- An execution in which the compilation job immediately reports `FAILED`
while the edge-packaging job reports `COMPLETED`. -/
def envFailedCompilation : Env where
  projectName := "demo"
  accountId := "123456789012"
  region := "us-east-1"
  role := "arn:aws:iam::123456789012:role/sm-role"
  registry := demoPipelineRegistry
  compTimestampMs := 1714000000000
  packTimestampMs := 1714000009000
  uuidStr := "00000000-0000-4000-8000-000000000000"
  compResponses := fun _ => ⟨"FAILED", ""⟩
  packResponses := fun _ => ⟨"COMPLETED", "s3://bucket-x/path/to/model.tar.gz"⟩
  compTerminates := ⟨0, by decide⟩
  packTerminates := ⟨0, by decide⟩

/-- An execution in which both the compilation job and the edge-packaging
job immediately report `FAILED`. -/
def envBothFailed : Env where
  projectName := "demo"
  accountId := "123456789012"
  region := "us-east-1"
  role := "arn:aws:iam::123456789012:role/sm-role"
  registry := demoPipelineRegistry
  compTimestampMs := 1714000000000
  packTimestampMs := 1714000009000
  uuidStr := "00000000-0000-4000-8000-000000000000"
  compResponses := fun _ => ⟨"FAILED", ""⟩
  packResponses := fun _ => ⟨"FAILED", ""⟩
  compTerminates := ⟨0, by decide⟩
  packTerminates := ⟨0, by decide⟩

/-- An execution in which the compilation job is in progress for two polls
and then reports `FAILED`, and the edge-packaging job reports `FAILED`. -/
def envSlowFailedCompilation : Env where
  projectName := "demo"
  accountId := "123456789012"
  region := "us-east-1"
  role := "arn:aws:iam::123456789012:role/sm-role"
  registry := demoPipelineRegistry
  compTimestampMs := 1714000000000
  packTimestampMs := 1714000009000
  uuidStr := "00000000-0000-4000-8000-000000000000"
  compResponses := fun i => if i < 2 then ⟨"INPROGRESS", ""⟩ else ⟨"FAILED", ""⟩
  packResponses := fun _ => ⟨"FAILED", ""⟩
  compTerminates := ⟨2, by decide⟩
  packTerminates := ⟨0, by decide⟩

/-- An execution in which both jobs immediately report `COMPLETED`. -/
def envBothCompleted : Env where
  projectName := "demo"
  accountId := "123456789012"
  region := "us-east-1"
  role := "arn:aws:iam::123456789012:role/sm-role"
  registry := demoPipelineRegistry
  compTimestampMs := 1714000000000
  packTimestampMs := 1714000009000
  uuidStr := "00000000-0000-4000-8000-000000000000"
  compResponses := fun _ => ⟨"COMPLETED", "s3://bucket-x/compiled/model-LINUX_X86_64.tar.gz"⟩
  packResponses := fun _ => ⟨"COMPLETED", "s3://bucket-x/path/to/model.tar.gz"⟩
  compTerminates := ⟨0, by decide⟩
  packTerminates := ⟨0, by decide⟩

/-! ## Helper lemmas about the polling-loop exit iteration -/

/-- The compilation loop exits at `n` exactly when response `n` is terminal
and every earlier response is in progress. -/
theorem compExit_eq_of (env : Env) (n : Nat)
    (h : (env.compResponses n).status ∉ inProgressStatuses)
    (hmin : ∀ m, m < n → (env.compResponses m).status ∈ inProgressStatuses) :
    env.compExit = n :=
  (Nat.find_eq_iff env.compTerminates).mpr
    ⟨h, fun m hm => not_not_intro (hmin m hm)⟩

/-- The packaging loop exits at `n` exactly when response `n` is terminal
and every earlier response is in progress. -/
theorem packExit_eq_of (env : Env) (n : Nat)
    (h : (env.packResponses n).status ∉ inProgressStatuses)
    (hmin : ∀ m, m < n → (env.packResponses m).status ∈ inProgressStatuses) :
    env.packExit = n :=
  (Nat.find_eq_iff env.packTerminates).mpr
    ⟨h, fun m hm => not_not_intro (hmin m hm)⟩

/-- Rewrites a run at known exit iterations into the explicit form. -/
theorem runPipeline_eq (env : Env) (i j : Nat)
    (hi : env.compExit = i) (hj : env.packExit = j) :
    runPipeline env = runPipelineAt env i j := by
  unfold runPipeline
  rw [hi, hj]

theorem envFailedCompilation_compExit : envFailedCompilation.compExit = 0 :=
  compExit_eq_of _ 0 (by decide) (by omega)

theorem envFailedCompilation_packExit : envFailedCompilation.packExit = 0 :=
  packExit_eq_of _ 0 (by decide) (by omega)

theorem envBothFailed_compExit : envBothFailed.compExit = 0 :=
  compExit_eq_of _ 0 (by decide) (by omega)

theorem envBothFailed_packExit : envBothFailed.packExit = 0 :=
  packExit_eq_of _ 0 (by decide) (by omega)

theorem envSlowFailedCompilation_compExit : envSlowFailedCompilation.compExit = 2 :=
  compExit_eq_of _ 2 (by decide) (by decide)

theorem envSlowFailedCompilation_packExit : envSlowFailedCompilation.packExit = 0 :=
  packExit_eq_of _ 0 (by decide) (by omega)

theorem envBothCompleted_compExit : envBothCompleted.compExit = 0 :=
  compExit_eq_of _ 0 (by decide) (by omega)

theorem envBothCompleted_packExit : envBothCompleted.packExit = 0 :=
  packExit_eq_of _ 0 (by decide) (by omega)

/-! ## Lemmas about the Python string helpers -/

theorem startsS3_s3_cons (rest : List Char) :
    startsS3 ('s' :: '3' :: ':' :: '/' :: '/' :: rest) = true := rfl

theorem removeAllS3_s3_cons (rest : List Char) :
    removeAllS3 ('s' :: '3' :: ':' :: '/' :: '/' :: rest) = removeAllS3 rest := rfl

theorem removeAllS3_cons_of_not_starts (c : Char) (cs : List Char)
    (h : startsS3 (c :: cs) = false) :
    removeAllS3 (c :: cs) = c :: removeAllS3 cs := by
  rw [removeAllS3.eq_def]
  split
  · rename_i rest heq
    rw [heq] at h
    simp [startsS3_s3_cons] at h
  · rename_i c2 cs2 hno heq
    injection heq with h1 h2
    subst h1; subst h2
    rfl
  · rename_i heq
    exact absurd heq (by simp)

/-- `replace("s3://", "")` leaves a string without any occurrence of the
pattern unchanged. -/
theorem removeAllS3_of_not_contains (l : List Char) (h : containsS3 l = false) :
    removeAllS3 l = l := by
  induction l with
  | nil => rfl
  | cons c cs ih =>
    rw [containsS3, Bool.or_eq_false_iff] at h
    rw [removeAllS3_cons_of_not_starts c cs h.1, ih h.2]

theorem splitOnSlash_slash_cons (cs : List Char) :
    splitOnSlash ('/' :: cs) = [] :: splitOnSlash cs := by
  simp [splitOnSlash]

theorem splitOnSlash_cons_of_ne (c : Char) (cs : List Char) (h : ¬ c = '/') :
    splitOnSlash (c :: cs) =
      match splitOnSlash cs with
      | [] => [[c]]
      | p :: ps => (c :: p) :: ps := by
  rw [splitOnSlash, if_neg h]

theorem splitOnSlash_ne_nil (l : List Char) : splitOnSlash l ≠ [] := by
  cases l with
  | nil => simp [splitOnSlash]
  | cons c cs =>
    rw [splitOnSlash]
    split
    · simp
    · split <;> simp

/-- Splitting at the first slash after a slash-free bucket isolates the
bucket. -/
theorem splitOnSlash_append (b k : List Char) (hb : '/' ∉ b) :
    splitOnSlash (b ++ '/' :: k) = b :: splitOnSlash k := by
  induction b with
  | nil => simpa using splitOnSlash_slash_cons k
  | cons c b' ih =>
    have hc : ¬ c = '/' := fun hcc => hb (hcc ▸ List.mem_cons_self c b')
    have hb' : '/' ∉ b' := fun hm => hb (List.mem_cons_of_mem c hm)
    rw [List.cons_append, splitOnSlash_cons_of_ne c _ hc, ih hb']

/-- `"/".join` is a left inverse of `split("/")`. -/
theorem intercalateSlash_splitOnSlash (l : List Char) :
    intercalateSlash (splitOnSlash l) = l := by
  induction l with
  | nil => rfl
  | cons c cs ih =>
    by_cases hc : c = '/'
    · subst hc
      rw [splitOnSlash_slash_cons]
      obtain ⟨p, ps, hps⟩ := List.exists_cons_of_ne_nil (splitOnSlash_ne_nil cs)
      rw [hps] at ih ⊢
      rw [intercalateSlash]
      simpa using ih
    · rw [splitOnSlash_cons_of_ne c cs hc]
      obtain ⟨p, ps, hps⟩ := List.exists_cons_of_ne_nil (splitOnSlash_ne_nil cs)
      rw [hps] at ih ⊢
      cases ps with
      | nil =>
        rw [intercalateSlash] at ih ⊢
        rw [ih]
      | cons q qs =>
        rw [intercalateSlash] at ih ⊢
        rw [List.cons_append, ih]

/-- On a URI `s3://` + bucket + `/` + key in which the bucket is slash-free
and `s3://` does not occur in bucket-slash-key, `split_s3_path` recovers the
bucket and the key. -/
theorem split_s3_path_of_clean (b k : String) (hb : '/' ∉ b.data)
    (hocc : containsS3 (b.data ++ '/' :: k.data) = false) :
    split_s3_path ("s3://" ++ b ++ "/" ++ k) = (b, k) := by
  have hdata : ("s3://" ++ b ++ "/" ++ k).data
      = 's' :: '3' :: ':' :: '/' :: '/' :: (b.data ++ '/' :: k.data) := by
    simp [String.data_append]
  unfold split_s3_path
  rw [hdata, removeAllS3_s3_cons, removeAllS3_of_not_contains _ hocc,
      splitOnSlash_append b.data k.data hb]
  show (String.mk b.data, String.mk (intercalateSlash (splitOnSlash k.data))) = (b, k)
  rw [intercalateSlash_splitOnSlash]

/-! ## Claim theorems -/

/-! ## Lemmas about the Python max-by-key reduction -/

theorem pickLater_eq_or (key : RegistryEntry → Nat) (x y : RegistryEntry) :
    pickLater key x y = x ∨ pickLater key x y = y := by
  unfold pickLater
  split
  · right; rfl
  · left; rfl

theorem le_pickLater_left (key : RegistryEntry → Nat) (x y : RegistryEntry) :
    key x ≤ key (pickLater key x y) := by
  unfold pickLater
  split
  · exact Nat.le_of_lt (by assumption)
  · exact Nat.le_refl _

theorem le_pickLater_right (key : RegistryEntry → Nat) (x y : RegistryEntry) :
    key y ≤ key (pickLater key x y) := by
  unfold pickLater
  split
  · exact Nat.le_refl _
  · exact Nat.le_of_not_lt (by assumption)

/-- The max-by-key fold returns an element of the sequence. -/
theorem foldl_pickLater_mem (key : RegistryEntry → Nat) (xs : Registry) :
    ∀ x, xs.foldl (pickLater key) x ∈ x :: xs := by
  induction xs with
  | nil => intro x; simp
  | cons z zs ih =>
    intro x
    rw [List.foldl_cons]
    have h := ih (pickLater key x z)
    rcases pickLater_eq_or key x z with he | he <;>
      rw [he] at h ⊢ <;>
      rcases List.mem_cons.mp h with h2 | h2 <;>
      simp [h2]

/-- The max-by-key fold dominates every element of the sequence. -/
theorem le_foldl_pickLater (key : RegistryEntry → Nat) (xs : Registry) :
    ∀ x y, y ∈ x :: xs → key y ≤ key (xs.foldl (pickLater key) x) := by
  induction xs with
  | nil =>
    intro x y hy
    rw [List.mem_singleton] at hy
    subst hy
    exact Nat.le_refl _
  | cons z zs ih =>
    intro x y hy
    rw [List.foldl_cons]
    rcases List.mem_cons.mp hy with rfl | hy2
    · exact Nat.le_trans (le_pickLater_left key y z)
        (ih (pickLater key y z) _ (List.mem_cons_self _ _))
    · rcases List.mem_cons.mp hy2 with rfl | hy3
      · exact Nat.le_trans (le_pickLater_right key x y)
          (ih (pickLater key x y) _ (List.mem_cons_self _ _))
      · exact ih (pickLater key x z) y (List.mem_cons_of_mem _ hy3)

/-- Claim C3 (confirmed): on every registry whose approved list for the
queried group is non-empty (and whose ARNs are distinct, as registry ARNs
are), the two resolvers return the artifact URI and the version number of an
approved entry of that group whose version dominates every approved entry of
the group — the highest approved version, e.g. version 2 of a registry with
versions 1, 2 approved and 5 unapproved (see the witness). -/
theorem resolver_returns_highest_approved (client : Registry) (g p : String)
    (hne : list_model_packages client g "Approved" ≠ [])
    (harn : (client.map (fun e => e.arn)).Nodup) :
    ∃ e ∈ client, e.group = g ∧ e.approvalStatus = "Approved" ∧
      (∀ e2 ∈ client, e2.group = g → e2.approvalStatus = "Approved" →
        e2.version ≤ e.version) ∧
      get_latest_approved_s3_model_location client g p = Except.ok e.modelDataUrl ∧
      get_latest_approved_model_version client g p = Except.ok e.version := by
  obtain ⟨f, fs, hF⟩ := List.exists_cons_of_ne_nil hne
  set latest := fs.foldl (pickLater fun e => e.version) f with hlatest
  have hmemF : latest ∈ list_model_packages client g "Approved" := by
    rw [hF]; exact foldl_pickLater_mem _ fs f
  have hmemC : latest ∈ client ∧
      (latest.group == g && latest.approvalStatus == "Approved") = true :=
    List.mem_filter.mp hmemF
  have hgroup : latest.group = g := by
    have := hmemC.2
    rw [Bool.and_eq_true, beq_iff_eq, beq_iff_eq] at this
    exact this.1
  have hstatus : latest.approvalStatus = "Approved" := by
    have := hmemC.2
    rw [Bool.and_eq_true, beq_iff_eq, beq_iff_eq] at this
    exact this.2
  have hmax : ∀ e2 ∈ client, e2.group = g → e2.approvalStatus = "Approved" →
      e2.version ≤ latest.version := by
    intro e2 he2 hg2 hs2
    have he2F : e2 ∈ list_model_packages client g "Approved" :=
      List.mem_filter.mpr
        ⟨he2, by rw [Bool.and_eq_true, beq_iff_eq, beq_iff_eq]; exact ⟨hg2, hs2⟩⟩
    rw [hF] at he2F
    exact le_foldl_pickLater (fun e => e.version) fs f e2 he2F
  have hpyMax : pyMax (fun e => e.version) (list_model_packages client g "Approved")
      = Except.ok latest := by
    rw [hF]; rfl
  have hfindSome : (client.find? (fun e => e.arn == latest.arn)).isSome := by
    rw [List.find?_isSome]
    exact ⟨latest, hmemC.1, by simp⟩
  obtain ⟨e, he⟩ := Option.isSome_iff_exists.mp hfindSome
  have hearn : e.arn = latest.arn := by
    have := List.find?_some he
    rwa [beq_iff_eq] at this
  have hemem : e ∈ client := List.mem_of_find?_eq_some he
  have helatest : e = latest :=
    List.inj_on_of_nodup_map harn hemem hmemC.1 hearn
  refine ⟨latest, hmemC.1, hgroup, hstatus, hmax, ?_, ?_⟩
  · unfold get_latest_approved_s3_model_location
    rw [hpyMax]
    show describe_model_package client latest.arn = Except.ok latest.modelDataUrl
    unfold describe_model_package
    rw [he]
    show Except.ok e.modelDataUrl = Except.ok latest.modelDataUrl
    rw [helatest]
  · unfold get_latest_approved_model_version
    rw [hpyMax]

/-- Witness for claim C3's theorem on the registry with versions 1, 2, 5
where 5 is unapproved: the resolvers return version 2's artifact location
and version number. -/
theorem resolver_returns_highest_approved_witness :
    (list_model_packages demoRegistry "grp" "Approved" ≠ []) ∧
    (demoRegistry.map (fun e => e.arn)).Nodup ∧
    get_latest_approved_s3_model_location demoRegistry "grp" "other-group" =
      Except.ok "s3://artifacts/model-v2.tar.gz" ∧
    get_latest_approved_model_version demoRegistry "grp" "other-group" =
      Except.ok 2 ∧
    ∃ e ∈ demoRegistry, e.group = "grp" ∧ e.approvalStatus = "Approved" ∧
      (∀ e2 ∈ demoRegistry, e2.group = "grp" → e2.approvalStatus = "Approved" →
        e2.version ≤ e.version) ∧
      get_latest_approved_s3_model_location demoRegistry "grp" "other-group" =
        Except.ok e.modelDataUrl ∧
      get_latest_approved_model_version demoRegistry "grp" "other-group" =
        Except.ok e.version :=
  ⟨by decide, by decide, rfl, rfl,
    resolver_returns_highest_approved demoRegistry "grp" "other-group"
      (by decide) (by decide)⟩

/-- Claim C1 (code bug): contrary to the claimed if-and-only-if gating, the
fleet-dispatch stage is reached in an execution whose compilation job ends in
the terminal status `FAILED`, as long as the packaging job reports
`COMPLETED`: the notebook gates the IoT dispatch only on the packaging
artifact variable being set, never on the compilation status. -/
theorem dispatch_submitted_despite_failed_compilation :
    (envFailedCompilation.compResponses envFailedCompilation.compExit).status = "FAILED" ∧
    (runPipeline envFailedCompilation).events.any isIotJobEvent = true ∧
    (runPipeline envFailedCompilation).error = none := by
  rw [runPipeline_eq envFailedCompilation 0 0
        envFailedCompilation_compExit envFailedCompilation_packExit,
      envFailedCompilation_compExit]
  decide

/-- Claim C2 (code bug): on a registry whose approved list is empty — whether
the registry is empty or only holds non-approved entries — both resolvers end
in the unhandled `ValueError` that Python `max` raises on an empty sequence,
not in a named "no approved model" failure. -/
theorem resolver_unhandled_value_error_on_empty :
    get_latest_approved_s3_model_location [] "grp" "grp" =
      Except.error PyErr.valueError ∧
    get_latest_approved_model_version [] "grp" "grp" =
      Except.error PyErr.valueError ∧
    get_latest_approved_s3_model_location demoRejectedRegistry
      "groupRejected" "groupRejected" = Except.error PyErr.valueError ∧
    get_latest_approved_model_version demoRejectedRegistry
      "groupRejected" "groupRejected" = Except.error PyErr.valueError :=
  ⟨rfl, rfl, rfl, rfl⟩

/-- Claim C4 (code bug): in an execution whose compilation polling loop exits
with the status `FAILED`, the notebook nevertheless submits
`create_edge_packaging_job` afterwards — the packaging cell references the
compilation job only by name and is not gated on the compilation status. -/
theorem packaging_submitted_after_failed_compilation :
    (envBothFailed.compResponses envBothFailed.compExit).status = "FAILED" ∧
    (runPipeline envBothFailed).events.any isEdgePackagingEvent = true := by
  rw [runPipeline_eq envBothFailed 0 0 envBothFailed_compExit envBothFailed_packExit,
      envBothFailed_compExit]
  decide

/-- Claim C5 (code bug): both job-name generators are the bare formula
`'%s-%d' % (model_name, int(time.time()*1000))` with no uuid component, so
two generations within the same millisecond-resolution clock window produce
the identical name instead of distinct ones. -/
theorem job_names_collide_in_same_millisecond :
    compilation_job_name 1714000000123 = edge_packaging_job_name 1714000000123 ∧
    compilation_job_name 1714000000123 = "img-classification-1714000000123" :=
  ⟨rfl, rfl⟩

/-- Claim C7 (code bug): the polling loops do run at a fixed 5-second
interval and exit at the first status outside `STARTING`/`INPROGRESS`, and
the artifact variable stays unset on a non-`COMPLETED` terminal status — but
the stage then surfaces no failure: the run proceeds, still submits the
packaging request, and eventually dies of an unrelated `NameError` at
`split_s3_path` instead of a stage-tagged failure. Shown on an execution
whose compilation loop sees two in-progress polls and then `FAILED`. -/
theorem polling_failure_not_surfaced :
    envSlowFailedCompilation.compPollSleeps = [5, 5] ∧
    (envSlowFailedCompilation.compResponses 0).status ∈ inProgressStatuses ∧
    (envSlowFailedCompilation.compResponses 1).status ∈ inProgressStatuses ∧
    (envSlowFailedCompilation.compResponses envSlowFailedCompilation.compExit).status
      = "FAILED" ∧
    envSlowFailedCompilation.compArtifactVar = none ∧
    (runPipeline envSlowFailedCompilation).events.any isEdgePackagingEvent = true ∧
    (runPipeline envSlowFailedCompilation).error = some PyErr.nameError := by
  unfold Env.compPollSleeps Env.compArtifactVar
  rw [runPipeline_eq envSlowFailedCompilation 2 0
        envSlowFailedCompilation_compExit envSlowFailedCompilation_packExit,
      envSlowFailedCompilation_compExit]
  decide

/-- Claim C9 (confirmed): both resolvers are independent of their
`model_package_group` parameter — with the same registry and the same global
group name, any two parameter values give the same result, because the body
queries the global `model_package_group_name`. On a registry with approved
entries in `groupA` and `groupB`, calling with global `groupA` and parameter
`groupB` returns the `groupA` artifact. -/
theorem resolver_ignores_group_parameter :
    (∀ (client : Registry) (g p q : String),
      get_latest_approved_s3_model_location client g p =
        get_latest_approved_s3_model_location client g q ∧
      get_latest_approved_model_version client g p =
        get_latest_approved_model_version client g q) ∧
    get_latest_approved_s3_model_location demoTwoGroups "groupA" "groupB" =
      Except.ok "s3://bucket-a/model-a.tar.gz" ∧
    get_latest_approved_model_version demoTwoGroups "groupA" "groupB" =
      Except.ok 1 :=
  ⟨fun _ _ _ _ => ⟨rfl, rfl⟩, rfl, rfl⟩

/-- Claim C6 (counterexample): for a key that itself contains the substring
`s3://`, `split_s3_path` does not return the key embedded in the URI, because
`replace("s3://", "")` removes every occurrence, not only the prefix. -/
theorem split_s3_path_embedded_scheme_countereg :
    split_s3_path ("s3://" ++ "bucket-x" ++ "/" ++ "xs3://model.tar.gz") ≠
      ("bucket-x", "xs3://model.tar.gz") := by
  decide

/-- Claim C10 (counterexample): the substring `s3://` occurs in neither the
bucket `xs3:` nor the key `/y`, yet an occurrence straddling the
bucket-slash-key boundary is still removed, so `split_s3_path` does not
return `(bucket, key)` for this pair. -/
theorem split_s3_path_boundary_countereg :
    containsS3 "xs3:".data = false ∧ containsS3 "/y".data = false ∧
    split_s3_path ("s3://" ++ "xs3:" ++ "/" ++ "/y") ≠ ("xs3:", "/y") := by
  decide

/-- Any `iot_client.create_job` submission of a run has snapshot targeting,
the notebook uuid as job id, the single device-group ARN as target, happens
only when the packaging loop exited with `COMPLETED`, and carries exactly the
five-key document built from the resolved version and the bucket/key split of
the packaged artifact. -/
theorem runPipelineAt_iot_event (env : Env) (i j : Nat)
    (jobId : String) (tgts : List String) (doc : List (String × String)) (sel : String)
    (hmem : Event.createIotJob jobId tgts doc sel ∈ (runPipelineAt env i j).events) :
    sel = "SNAPSHOT" ∧ jobId = env.uuidStr ∧ tgts = [env.deviceGroupArn] ∧
    (env.packResponses j).status = "COMPLETED" ∧
    ∃ v, get_latest_approved_model_version env.registry
        env.modelPackageGroupName env.modelPackageGroupName = Except.ok v ∧
      doc = [("type", "new_model"), ("model_version", toString v),
             ("model_name", model_name),
             ("model_package_bucket", (split_s3_path (env.packResponses j).artifact).1),
             ("model_package_key", (split_s3_path (env.packResponses j).artifact).2)] := by
  unfold runPipelineAt at hmem
  split at hmem
  · simp at hmem
  · split at hmem
    · simp at hmem
    · rename_i v hv
      simp only [] at hmem
      split at hmem
      · simp at hmem
      · rename_i uri huri
        obtain ⟨h1, h2, h3, h4⟩ : jobId = env.uuidStr ∧ tgts = [env.deviceGroupArn] ∧
            doc = [("type", "new_model"), ("model_version", toString v),
              ("model_name", model_name),
              ("model_package_bucket", (split_s3_path uri).1),
              ("model_package_key", (split_s3_path uri).2)] ∧ sel = "SNAPSHOT" := by
          simpa using hmem
        have hstatus : (env.packResponses j).status = "COMPLETED" ∧
            uri = (env.packResponses j).artifact := by
          unfold artifactVarOf at huri
          split at huri
          · exact ⟨by assumption, by injection huri with h; exact h.symm⟩
          · exact absurd huri (by simp)
        refine ⟨h4, h1, h2, hstatus.1, v, hv, ?_⟩
        rw [h3, hstatus.2]

/-- Claim C8 (confirmed): whenever the fleet-dispatch stage runs, the
submitted job document is exactly the five-key JSON object
`type = "new_model"`, `model_version` (the resolved latest approved version),
`model_name`, `model_package_bucket` and `model_package_key` (the bucket/key
split of the packaged artifact URI), submitted with `targetSelection =
"SNAPSHOT"` to the single named device-group ARN. -/
theorem dispatched_iot_job_document (env : Env)
    (jobId : String) (tgts : List String) (doc : List (String × String)) (sel : String)
    (hmem : Event.createIotJob jobId tgts doc sel ∈ (runPipeline env).events) :
    sel = "SNAPSHOT" ∧ jobId = env.uuidStr ∧ tgts = [env.deviceGroupArn] ∧
    (env.packResponses env.packExit).status = "COMPLETED" ∧
    ∃ v, get_latest_approved_model_version env.registry
        env.modelPackageGroupName env.modelPackageGroupName = Except.ok v ∧
      doc = [("type", "new_model"), ("model_version", toString v),
             ("model_name", model_name),
             ("model_package_bucket",
               (split_s3_path (env.packResponses env.packExit).artifact).1),
             ("model_package_key",
               (split_s3_path (env.packResponses env.packExit).artifact).2)] :=
  runPipelineAt_iot_event env env.compExit env.packExit jobId tgts doc sel hmem

/-- Witness for claim C8's theorem on a run in which both jobs complete. -/
theorem dispatched_iot_job_document_witness :
    "SNAPSHOT" = "SNAPSHOT" ∧
    "00000000-0000-4000-8000-000000000000" = envBothCompleted.uuidStr ∧
    ["arn:aws:iot:us-east-1:123456789012:thinggroup/defect-detection-demo-group"]
      = [envBothCompleted.deviceGroupArn] ∧
    (envBothCompleted.packResponses envBothCompleted.packExit).status = "COMPLETED" ∧
    ∃ v, get_latest_approved_model_version envBothCompleted.registry
        envBothCompleted.modelPackageGroupName envBothCompleted.modelPackageGroupName
        = Except.ok v ∧
      [("type", "new_model"), ("model_version", "2"),
       ("model_name", "img-classification"),
       ("model_package_bucket", "bucket-x"),
       ("model_package_key", "path/to/model.tar.gz")]
      = [("type", "new_model"), ("model_version", toString v),
         ("model_name", model_name),
         ("model_package_bucket",
           (split_s3_path (envBothCompleted.packResponses envBothCompleted.packExit).artifact).1),
         ("model_package_key",
           (split_s3_path (envBothCompleted.packResponses envBothCompleted.packExit).artifact).2)] :=
  dispatched_iot_job_document envBothCompleted
    "00000000-0000-4000-8000-000000000000"
    ["arn:aws:iot:us-east-1:123456789012:thinggroup/defect-detection-demo-group"]
    [("type", "new_model"), ("model_version", "2"),
     ("model_name", "img-classification"),
     ("model_package_bucket", "bucket-x"),
     ("model_package_key", "path/to/model.tar.gz")]
    "SNAPSHOT"
    (by rw [runPipeline_eq envBothCompleted 0 0 envBothCompleted_compExit
              envBothCompleted_packExit]
        decide)

/-- Claim C6 (amended): `split_s3_path` maps
`s3://bucket-x/path/to/model.tar.gz` to `("bucket-x", "path/to/model.tar.gz")`,
and for every URI `s3://` + bucket + `/` + key where the bucket contains no
`/` and the substring `s3://` does not occur in bucket + `/` + key, it
returns the bucket name and the key. -/
theorem split_s3_path_correct (b k : String) (hb : '/' ∉ b.data)
    (hocc : containsS3 (b.data ++ '/' :: k.data) = false) :
    split_s3_path ("s3://" ++ b ++ "/" ++ k) = (b, k) ∧
    split_s3_path "s3://bucket-x/path/to/model.tar.gz" =
      ("bucket-x", "path/to/model.tar.gz") :=
  ⟨split_s3_path_of_clean b k hb hocc, by decide⟩

/-- Witness for claim C6's theorem at the spec's concrete URI. -/
theorem split_s3_path_correct_witness :
    ('/' ∉ "bucket-x".data) ∧
    containsS3 ("bucket-x".data ++ '/' :: "path/to/model.tar.gz".data) = false ∧
    split_s3_path ("s3://" ++ "bucket-x" ++ "/" ++ "path/to/model.tar.gz") =
      ("bucket-x", "path/to/model.tar.gz") :=
  ⟨by decide, by decide,
    (split_s3_path_correct "bucket-x" "path/to/model.tar.gz"
      (by decide) (by decide)).1⟩

/-- Claim C10 (amended): for every bucket `b` without `/` and key `k` such
that the substring `s3://` does not occur in `b` + `/` + `k`,
`split_s3_path (s3:// + b + / + k)` equals `(b, k)` and rejoining the parts
as `s3://` + bucket + `/` + key round-trips the input; whereas for some input
whose key contains `s3://` the returned key differs from the embedded key
(see the counterexample theorem). -/
theorem split_s3_path_roundtrip (b k : String) (hb : '/' ∉ b.data)
    (hocc : containsS3 (b.data ++ '/' :: k.data) = false) :
    split_s3_path ("s3://" ++ b ++ "/" ++ k) = (b, k) ∧
    "s3://" ++ (split_s3_path ("s3://" ++ b ++ "/" ++ k)).1 ++ "/" ++
      (split_s3_path ("s3://" ++ b ++ "/" ++ k)).2 = "s3://" ++ b ++ "/" ++ k := by
  have h := split_s3_path_of_clean b k hb hocc
  exact ⟨h, by rw [h]⟩

/-- Witness for claim C10's theorem on a packaged-artifact-style URI. -/
theorem split_s3_path_roundtrip_witness :
    ('/' ∉ "sagemaker-data".data) ∧
    containsS3 ("sagemaker-data".data ++ '/' :: "models/demo/model.tar.gz".data)
      = false ∧
    split_s3_path ("s3://" ++ "sagemaker-data" ++ "/" ++ "models/demo/model.tar.gz") =
      ("sagemaker-data", "models/demo/model.tar.gz") :=
  ⟨by decide, by decide,
    (split_s3_path_roundtrip "sagemaker-data" "models/demo/model.tar.gz"
      (by decide) (by decide)).1⟩
